import Mathlib

/-!
Shallow embedding of src/backend/routes/assistantRoutes.js: an Express router
with two endpoints (POST /ask and POST /audio) that validate input, fetch an
inventory snapshot from the database, spawn an external Python process, buffer
its stdout/stderr streams, and translate its exit status into an HTTP response.
-/

namespace Assistant

/-- A JavaScript value as it can appear in a parsed JSON request body field.
Mirrors the possible runtime types of req.body.text. -/
inductive JsValue where
  | undefined
  | null
  | str (s : String)
  | num (n : Int)
  | bool (b : Bool)
  | arr (elems : List JsValue)
  | obj
  deriving Repr

/-- JavaScript truthiness of a value, as tested by the negation !text in the
source. Empty string, 0, false, null and undefined are falsy; arrays and
objects are always truthy. -/
def jsTruthy : JsValue → Bool
  | .undefined => false
  | .null => false
  | .str s => s != ""
  | .num n => n != 0
  | .bool b => b
  | .arr _ => true
  | .obj => true

/-- Whether typeof the value is the string type, as tested by
typeof text !== "string" in the source. -/
def jsIsString : JsValue → Bool
  | .str _ => true
  | _ => false

/-- The underlying string of a string value (only consulted after the
typeof check has passed, so the default is never observable). -/
def jsStr : JsValue → String
  | .str s => s
  | _ => ""

/-- JavaScript String.prototype.trim: remove whitespace from both ends of
the string. Written by structural recursion on the character list so that
it evaluates on concrete inputs. -/
def jsTrim (s : String) : String :=
  ⟨((s.data.dropWhile Char.isWhitespace).reverse.dropWhile Char.isWhitespace).reverse⟩

/-- JavaScript String.prototype.toLowerCase, character by character; written
by structural recursion so that it evaluates on concrete inputs. -/
def jsToLowerCase (s : String) : String :=
  ⟨s.data.map Char.toLower⟩

/-- JavaScript String.prototype.includes with a single-character needle, as
used for the path.sep test; written by structural recursion so that it
evaluates on concrete inputs. -/
def includesChar (s : String) (c : Char) : Bool :=
  s.data.contains c

/-- The validation test of the /ask handler, line 62 of the source:
!text || typeof text !== "string" || text.trim().length === 0. -/
def textInvalid (v : JsValue) : Bool :=
  !jsTruthy v || !jsIsString v || ((jsTrim (jsStr v)).length == 0)

/-- A record of the Ingredients collection as consumed by
fetchInventoryFromDB: a name and a currentStock field that may be
null or undefined (modelled as none). -/
structure IngredientRec where
  name : String
  currentStock : Option Int
  deriving DecidableEq, Repr

/-- Assignment to a JavaScript object property, inventory[k] = v: an existing
key keeps its position and gets the new value, a new key is appended. -/
def objSet : List (String × Int) → String → Int → List (String × Int)
  | [], k, v => [(k, v)]
  | (k', v') :: rest, k, v =>
    if k' == k then (k', v) :: rest else (k', v') :: objSet rest k v

/-- fetchInventoryFromDB, lines 47-57 of the source: queries all records and
builds an object keyed by the lower-cased name whose value is
currentStock ?? 0. -/
def fetchInventoryFromDB (records : List IngredientRec) : List (String × Int) :=
  records.foldl (fun inv item => objSet inv (jsToLowerCase item.name) (item.currentStock.getD 0)) []

/-- Specification-side helper: the stock value of the LAST record whose
lower-cased name is the given key (later assignments to a JavaScript object
key overwrite earlier ones), or none when no record has that key. -/
def lastStock (k : String) : List IngredientRec → Option Int
  | [] => none
  | r :: rest =>
    match lastStock k rest with
    | some v => some v
    | none => if jsToLowerCase r.name == k then some (r.currentStock.getD 0) else none

/-- Reading a JavaScript object property: the value stored at the given key,
or none when the key is absent. -/
def getVal : List (String × Int) → String → Option Int
  | [], _ => none
  | (k', v') :: rest, k => if k' == k then some v' else getVal rest k

theorem getVal_objSet (m : List (String × Int)) (k k' : String) (v : Int) :
    getVal (objSet m k v) k' = if k == k' then some v else getVal m k' := by
  induction m with
  | nil =>
    by_cases h : k = k'
    · subst h; simp [objSet, getVal]
    · simp [objSet, getVal, h]
  | cons p rest ih =>
    obtain ⟨a, b⟩ := p
    by_cases hak : a = k
    · subst hak
      by_cases h : a = k'
      · subst h; simp [objSet, getVal]
      · simp [objSet, getVal, h]
    · by_cases h : a = k'
      · subst h
        simp [objSet, getVal, hak, Ne.symm hak]
      · simp [objSet, getVal, hak, h, ih]

theorem getVal_foldl_objSet (records : List IngredientRec) (m : List (String × Int)) (k : String) :
    getVal (records.foldl (fun inv item => objSet inv (jsToLowerCase item.name) (item.currentStock.getD 0)) m) k
      = match lastStock k records with
        | some v => some v
        | none => getVal m k := by
  induction records generalizing m with
  | nil => simp [lastStock]
  | cons r rest ih =>
    simp only [List.foldl_cons, ih, lastStock]
    cases lastStock k rest with
    | some v => simp
    | none =>
      simp only [getVal_objSet]
      by_cases h : jsToLowerCase r.name = k <;> simp [h]

/-- The path.join call of the source, without the normalization of dotted
segments (the selection logic only inspects existence, via an arbitrary
filesystem predicate, and separator containment, which intercalation
preserves). -/
def pathJoin (sep : String) (parts : List String) : String :=
  String.intercalate sep parts

/-- The fixed ordered candidate list of getPythonPath, lines 14-28 of the
source: four virtual-environment interpreter paths joined from the module
directory, then the bare names python.exe, python3 and python. -/
def possiblePaths (dirname : String) (sep : String) : List String :=
  [ pathJoin sep [dirname, "..", ".venv", "Scripts", "python.exe"],
    pathJoin sep [dirname, "..", "venv", "Scripts", "python.exe"],
    pathJoin sep [dirname, "..", ".venv", "bin", "python"],
    pathJoin sep [dirname, "..", "venv", "bin", "python"],
    "python.exe",
    "python3",
    "python" ]

/-- The acceptance test of the loop body, line 31 of the source:
fs.existsSync(pythonPath) || !pythonPath.includes(path.sep). -/
def candidateOk (fsExists : String → Bool) (sep : Char) (p : String) : Bool :=
  fsExists p || !(includesChar p sep)

/-- The for loop of getPythonPath: return the first candidate passing the
test. -/
def firstCandidate (fsExists : String → Bool) (sep : Char) : List String → Option String
  | [] => none
  | p :: rest =>
    if candidateOk fsExists sep p then some p else firstCandidate fsExists sep rest

/-- getPythonPath, lines 12-38 of the source, parameterized by the
filesystem (existence predicate), the module directory and the platform
path separator: the loop over possiblePaths with the hardcoded fallback
"python" after it. -/
def getPythonPath (fsExists : String → Bool) (dirname : String) (sep : Char) : String :=
  match firstCandidate fsExists sep (possiblePaths dirname sep.toString) with
  | some p => p
  | none => "python"

theorem firstCandidate_eq_find (fsExists : String → Bool) (sep : Char) (l : List String) :
    firstCandidate fsExists sep l = l.find? (candidateOk fsExists sep) := by
  induction l with
  | nil => rfl
  | cons p rest ih =>
    by_cases h : candidateOk fsExists sep p = true
    · simp [firstCandidate, List.find?, h]
    · simp only [Bool.not_eq_true] at h
      simp [firstCandidate, List.find?, h, ih]

/-- The JSON shapes this router ever sends, one constructor per res.json
call site in the source. -/
inductive Body where
  | reply (s : String)
  | response (s : String)
  | errMsg (error : String)
  | errDetails (error details : String)
  | errProc (error : String) (code : Int) (stderr : String)
  deriving DecidableEq, Repr

/-- An HTTP response: status code and JSON body. A bare res.json call has
status 200. -/
structure HttpResponse where
  status : Nat
  body : Body
  deriving DecidableEq, Repr

/-- The externally observable actions a handler performs, in order: the
inventory fetch (with its result, none when the query failed), the process
spawn (command and argument list), the fs.unlink call on the temporary file
(with the outcome of the deletion), and each res.json send attempt. -/
inductive Action where
  | fetchInv (result : Option (List (String × Int)))
  | spawned (cmd : String) (args : List String)
  | unlink (path : String) (ok : Bool)
  | send (r : HttpResponse)
  deriving DecidableEq, Repr

/-- An event delivered to the spawned child process listeners: a stdout
data chunk, a stderr data chunk, the error event (spawn failure) or the
close event with the exit code. -/
inductive PyEvent where
  | stdoutData (chunk : String)
  | stderrData (chunk : String)
  | error (msg : String)
  | close (code : Int)
  deriving DecidableEq, Repr

/-- The per-request mutable state of a handler: the accumulated stdout
buffer (data), the accumulated stderr buffer (errorOutput), and the log of
performed actions. -/
structure Conn where
  data : String
  errorOutput : String
  log : List Action
  deriving DecidableEq, Repr

/-- The event listeners of the /ask handler, lines 75-102 of the source:
stdout chunks append to data, stderr chunks append to errorOutput, the
error event attempts a 500 send, and the close event attempts a 500 send
when the exit code is nonzero or errorOutput is nonempty, and otherwise a
200 reply with the trimmed stdout buffer. -/
def askOnEvent (s : Conn) : PyEvent → Conn
  | .stdoutData c => { s with data := s.data ++ c }
  | .stderrData c => { s with errorOutput := s.errorOutput ++ c }
  | .error msg =>
    { s with log := s.log ++ [.send ⟨500, .errDetails "Failed to start Python process" msg⟩] }
  | .close code =>
    if code ≠ 0 ∨ s.errorOutput ≠ "" then
      { s with log := s.log ++ [.send ⟨500, .errProc "Python process failed" code (jsTrim s.errorOutput)⟩] }
    else
      { s with log := s.log ++ [.send ⟨200, .reply (jsTrim s.data)⟩] }

/-- The event listeners of the /audio handler, lines 129-161 of the source.
Identical buffering; the close event first calls fs.unlink on the resolved
file path (the outcome is given by unlinkOk and only logged), then decides
the response; success uses the response field; the error event attempts a
500 send and performs no unlink. -/
def audioOnEvent (filePath : String) (unlinkOk : String → Bool) (s : Conn) : PyEvent → Conn
  | .stdoutData c => { s with data := s.data ++ c }
  | .stderrData c => { s with errorOutput := s.errorOutput ++ c }
  | .error msg =>
    { s with log := s.log ++ [.send ⟨500, .errDetails "Failed to start Python audio process" msg⟩] }
  | .close code =>
    if code ≠ 0 ∨ s.errorOutput ≠ "" then
      { s with log := s.log ++ [.unlink filePath (unlinkOk filePath),
        .send ⟨500, .errProc "Python audio process failed" code (jsTrim s.errorOutput)⟩] }
    else
      { s with log := s.log ++ [.unlink filePath (unlinkOk filePath),
        .send ⟨200, .response (jsTrim s.data)⟩] }

/-- The module-level environment of the router: the resolved interpreter
path, the script path, and the path.resolve function for uploaded file
paths. -/
structure Env where
  pythonPath : String
  scriptPath : String
  resolve : String → String

/-- Outcome of the awaited Ingredient.find query: the record list, or a
thrown database error caught by the surrounding try/catch. -/
inductive FetchOutcome where
  | ok (records : List IngredientRec)
  | dbError (msg : String)

/-- The /ask handler, lines 59-110 of the source: validate the text field,
fetch the inventory (the result is bound but never used again), spawn the
process with the script path and the raw text as arguments, then run the
event listeners over the events of this invocation. A thrown fetch error
reaches the catch block, which sends a 500 Assistant failed response. -/
def askRequest (env : Env) (body : JsValue) (fetch : FetchOutcome) (events : List PyEvent) : Conn :=
  if textInvalid body then
    ⟨"", "", [.send ⟨400, .errMsg "No text provided"⟩]⟩
  else
    match fetch with
    | .dbError msg =>
      ⟨"", "", [.fetchInv none, .send ⟨500, .errDetails "Assistant failed" msg⟩]⟩
    | .ok records =>
      let inventory := fetchInventoryFromDB records
      events.foldl askOnEvent
        ⟨"", "", [.fetchInv (some inventory), .spawned env.pythonPath [env.scriptPath, jsStr body]]⟩

/-- The /audio handler, lines 112-169 of the source: reject a missing
upload with 400, otherwise resolve the uploaded path, spawn the process
with the script path, the literal flag and the resolved path, then run the
event listeners. No inventory fetch happens on this route. -/
def audioRequest (env : Env) (file : Option String) (unlinkOk : String → Bool)
    (events : List PyEvent) : Conn :=
  match file with
  | none => ⟨"", "", [.send ⟨400, .errMsg "No audio file uploaded"⟩]⟩
  | some p =>
    let fp := env.resolve p
    events.foldl (audioOnEvent fp unlinkOk)
      ⟨"", "", [.spawned env.pythonPath [env.scriptPath, "--audio", fp]]⟩

/-- The send attempts in an action log, in order. -/
def sendsL (log : List Action) : List HttpResponse :=
  log.filterMap fun a =>
    match a with
    | .send r => some r
    | _ => none

/-- The send attempts of a run, in order. -/
def sends (c : Conn) : List HttpResponse :=
  sendsL c.log

/-- Modelled from the spec: the HTTP framework delivers at most one
response per request object, so of all send attempts only the first one
reaches the client. -/
def delivered (c : Conn) : Option HttpResponse :=
  (sends c).head?

/-- The spawn calls in an action log, in order. -/
def spawnedL (log : List Action) : List (String × List String) :=
  log.filterMap fun a =>
    match a with
    | .spawned cmd args => some (cmd, args)
    | _ => none

/-- The spawn calls of a run, in order. -/
def spawnedOf (c : Conn) : List (String × List String) :=
  spawnedL c.log

/-- The stdout buffer after a list of events, starting from a given buffer
(data += chunk on every stdout data event). -/
def dataAcc : List PyEvent → String → String
  | [], d => d
  | .stdoutData c :: evs, d => dataAcc evs (d ++ c)
  | .stderrData _ :: evs, d => dataAcc evs d
  | .error _ :: evs, d => dataAcc evs d
  | .close _ :: evs, d => dataAcc evs d

/-- The stderr buffer after a list of events, starting from a given buffer
(errorOutput += chunk on every stderr data event). -/
def errAcc : List PyEvent → String → String
  | [], e => e
  | .stdoutData _ :: evs, e => errAcc evs e
  | .stderrData c :: evs, e => errAcc evs (e ++ c)
  | .error _ :: evs, e => errAcc evs e
  | .close _ :: evs, e => errAcc evs e

/-- The actions the /ask listeners append for a list of events, given the
buffer contents at the start of the list. -/
def askL : List PyEvent → String → String → List Action
  | [], _, _ => []
  | .stdoutData c :: evs, d, e => askL evs (d ++ c) e
  | .stderrData c :: evs, d, e => askL evs d (e ++ c)
  | .error msg :: evs, d, e =>
    .send ⟨500, .errDetails "Failed to start Python process" msg⟩ :: askL evs d e
  | .close code :: evs, d, e =>
    (if code ≠ 0 ∨ e ≠ "" then
      Action.send ⟨500, .errProc "Python process failed" code (jsTrim e)⟩
    else
      Action.send ⟨200, .reply (jsTrim d)⟩) :: askL evs d e

/-- The actions the /audio listeners append for a list of events, given the
buffer contents at the start of the list. -/
def audioL (fp : String) (u : String → Bool) : List PyEvent → String → String → List Action
  | [], _, _ => []
  | .stdoutData c :: evs, d, e => audioL fp u evs (d ++ c) e
  | .stderrData c :: evs, d, e => audioL fp u evs d (e ++ c)
  | .error msg :: evs, d, e =>
    .send ⟨500, .errDetails "Failed to start Python audio process" msg⟩ :: audioL fp u evs d e
  | .close code :: evs, d, e =>
    .unlink fp (u fp) ::
    (if code ≠ 0 ∨ e ≠ "" then
      Action.send ⟨500, .errProc "Python audio process failed" code (jsTrim e)⟩
    else
      Action.send ⟨200, .response (jsTrim d)⟩) :: audioL fp u evs d e

theorem foldl_askOnEvent (evs : List PyEvent) (s : Conn) :
    evs.foldl askOnEvent s
      = ⟨dataAcc evs s.data, errAcc evs s.errorOutput,
         s.log ++ askL evs s.data s.errorOutput⟩ := by
  induction evs generalizing s with
  | nil => simp [dataAcc, errAcc, askL]
  | cons ev evs ih =>
    cases ev with
    | stdoutData c => simp [List.foldl_cons, askOnEvent, ih, dataAcc, errAcc, askL]
    | stderrData c => simp [List.foldl_cons, askOnEvent, ih, dataAcc, errAcc, askL]
    | error msg => simp [List.foldl_cons, askOnEvent, ih, dataAcc, errAcc, askL]
    | close code =>
      by_cases h : code ≠ 0 ∨ s.errorOutput ≠ ""
      · simp [List.foldl_cons, askOnEvent, ih, dataAcc, errAcc, askL, h]
      · simp [List.foldl_cons, askOnEvent, ih, dataAcc, errAcc, askL, h]

theorem foldl_audioOnEvent (fp : String) (u : String → Bool) (evs : List PyEvent) (s : Conn) :
    evs.foldl (audioOnEvent fp u) s
      = ⟨dataAcc evs s.data, errAcc evs s.errorOutput,
         s.log ++ audioL fp u evs s.data s.errorOutput⟩ := by
  induction evs generalizing s with
  | nil => simp [dataAcc, errAcc, audioL]
  | cons ev evs ih =>
    cases ev with
    | stdoutData c => simp [List.foldl_cons, audioOnEvent, ih, dataAcc, errAcc, audioL]
    | stderrData c => simp [List.foldl_cons, audioOnEvent, ih, dataAcc, errAcc, audioL]
    | error msg => simp [List.foldl_cons, audioOnEvent, ih, dataAcc, errAcc, audioL]
    | close code =>
      by_cases h : code ≠ 0 ∨ s.errorOutput ≠ ""
      · simp [List.foldl_cons, audioOnEvent, ih, dataAcc, errAcc, audioL, h]
      · simp [List.foldl_cons, audioOnEvent, ih, dataAcc, errAcc, audioL, h]

theorem string_length_eq_zero_iff (t : String) : t.length = 0 ↔ t = "" := by
  cases t with
  | mk l =>
    constructor
    · intro h
      have hl : l = [] := List.length_eq_zero.mp h
      simp [hl]
    · intro h
      have hd := congrArg String.data h
      simp at hd
      simp [String.length, hd]

theorem textInvalid_str (s : String) (h : jsTrim s ≠ "") :
    textInvalid (JsValue.str s) = false := by
  have hs : s ≠ "" := by
    intro he
    subst he
    exact h rfl
  have hlen : (jsTrim s).length ≠ 0 := fun hl => h ((string_length_eq_zero_iff _).mp hl)
  simp [textInvalid, jsTruthy, jsIsString, jsStr, hs, hlen]

/-- Whether an event is a pure stream-data event (no send attempt results
from it). -/
def isDataEvent : PyEvent → Bool
  | .stdoutData _ => true
  | .stderrData _ => true
  | _ => false

theorem dataAcc_append (xs ys : List PyEvent) (d : String) :
    dataAcc (xs ++ ys) d = dataAcc ys (dataAcc xs d) := by
  induction xs generalizing d with
  | nil => simp [dataAcc]
  | cons ev evs ih => cases ev <;> simp [dataAcc, ih]

theorem errAcc_append (xs ys : List PyEvent) (e : String) :
    errAcc (xs ++ ys) e = errAcc ys (errAcc xs e) := by
  induction xs generalizing e with
  | nil => simp [errAcc]
  | cons ev evs ih => cases ev <;> simp [errAcc, ih]

theorem askL_append (xs ys : List PyEvent) (d e : String) :
    askL (xs ++ ys) d e = askL xs d e ++ askL ys (dataAcc xs d) (errAcc xs e) := by
  induction xs generalizing d e with
  | nil => simp [askL, dataAcc, errAcc]
  | cons ev evs ih => cases ev <;> simp [askL, dataAcc, errAcc, ih]

theorem audioL_append (fp : String) (u : String → Bool) (xs ys : List PyEvent) (d e : String) :
    audioL fp u (xs ++ ys) d e
      = audioL fp u xs d e ++ audioL fp u ys (dataAcc xs d) (errAcc xs e) := by
  induction xs generalizing d e with
  | nil => simp [audioL, dataAcc, errAcc]
  | cons ev evs ih => cases ev <;> simp [audioL, dataAcc, errAcc, ih]

theorem askL_data_only (xs : List PyEvent) (h : ∀ ev ∈ xs, isDataEvent ev = true)
    (d e : String) : askL xs d e = [] := by
  induction xs generalizing d e with
  | nil => simp [askL]
  | cons ev evs ih =>
    cases ev with
    | stdoutData c => exact ih (fun x hx => h x (List.mem_cons_of_mem _ hx)) (d ++ c) e
    | stderrData c => exact ih (fun x hx => h x (List.mem_cons_of_mem _ hx)) d (e ++ c)
    | error msg => simpa [isDataEvent] using h _ (List.mem_cons_self _ _)
    | close code => simpa [isDataEvent] using h _ (List.mem_cons_self _ _)

theorem audioL_data_only (fp : String) (u : String → Bool) (xs : List PyEvent)
    (h : ∀ ev ∈ xs, isDataEvent ev = true) (d e : String) : audioL fp u xs d e = [] := by
  induction xs generalizing d e with
  | nil => simp [audioL]
  | cons ev evs ih =>
    cases ev with
    | stdoutData c => exact ih (fun x hx => h x (List.mem_cons_of_mem _ hx)) (d ++ c) e
    | stderrData c => exact ih (fun x hx => h x (List.mem_cons_of_mem _ hx)) d (e ++ c)
    | error msg => simpa [isDataEvent] using h _ (List.mem_cons_self _ _)
    | close code => simpa [isDataEvent] using h _ (List.mem_cons_self _ _)

theorem dataAcc_map_stdout (chunks : List String) (d : String) :
    dataAcc (chunks.map PyEvent.stdoutData) d = chunks.foldl (fun r c => r ++ c) d := by
  induction chunks generalizing d with
  | nil => simp [dataAcc]
  | cons c cs ih => simp [dataAcc, ih]

theorem errAcc_map_stdout (chunks : List String) (e : String) :
    errAcc (chunks.map PyEvent.stdoutData) e = e := by
  induction chunks with
  | nil => simp [errAcc]
  | cons c cs ih => simp [errAcc, ih]

theorem stdoutData_isData (chunks : List String) :
    ∀ ev ∈ chunks.map PyEvent.stdoutData, isDataEvent ev = true := by
  intro ev hev
  obtain ⟨c, _, rfl⟩ := List.mem_map.mp hev
  rfl

theorem join_eq_foldl (l : List String) : String.join l = l.foldl (fun r c => r ++ c) "" := rfl

theorem sendsL_append (l1 l2 : List Action) : sendsL (l1 ++ l2) = sendsL l1 ++ sendsL l2 :=
  List.filterMap_append l1 l2 _

theorem spawnedL_append (l1 l2 : List Action) :
    spawnedL (l1 ++ l2) = spawnedL l1 ++ spawnedL l2 :=
  List.filterMap_append l1 l2 _

theorem spawnedL_askL (evs : List PyEvent) (d e : String) :
    spawnedL (askL evs d e) = [] := by
  induction evs generalizing d e with
  | nil => rfl
  | cons ev evs ih =>
    cases ev with
    | stdoutData c => exact ih (d ++ c) e
    | stderrData c => exact ih d (e ++ c)
    | error msg => simpa [askL, spawnedL] using ih d e
    | close code =>
      by_cases h : code ≠ 0 ∨ e ≠ "" <;> simpa [askL, spawnedL, h] using ih d e

theorem askRequest_invalid (env : Env) (body : JsValue) (fetch : FetchOutcome)
    (events : List PyEvent) (h : textInvalid body = true) :
    askRequest env body fetch events
      = ⟨"", "", [.send ⟨400, .errMsg "No text provided"⟩]⟩ := by
  simp [askRequest, h]

/-- C1: for every POST /ask request whose body text is a non-empty string
after trimming, if the spawned process closes with exit code 0 and no
stderr content was captured, the handler responds with success status 200
and JSON body reply = trimmed accumulated stdout. -/
theorem ask_success_replies_trimmed_stdout (env : Env) (records : List IngredientRec)
    (s : String) (chunks : List String) (h : jsTrim s ≠ "") :
    delivered (askRequest env (.str s) (.ok records)
        (chunks.map PyEvent.stdoutData ++ [PyEvent.close 0]))
      = some ⟨200, .reply (jsTrim (String.join chunks))⟩ := by
  rw [join_eq_foldl, ← dataAcc_map_stdout]
  simp only [askRequest, textInvalid_str s h, Bool.false_eq_true, if_false,
    foldl_askOnEvent, askL_append,
    askL_data_only _ (stdoutData_isData chunks), errAcc_map_stdout, askL]
  simp [delivered, sends, sendsL]

theorem ask_success_replies_trimmed_stdout_witness :
    jsTrim "hello" ≠ ""
    ∧ delivered (askRequest ⟨"python3", "assistant.py", id⟩ (.str "hello") (.ok [])
        (["how ", "much flour? "].map PyEvent.stdoutData ++ [PyEvent.close 0]))
      = some ⟨200, .reply (jsTrim (String.join ["how ", "much flour? "]))⟩ :=
  ⟨by decide,
   ask_success_replies_trimmed_stdout ⟨"python3", "assistant.py", id⟩ [] "hello"
     ["how ", "much flour? "] (by decide)⟩

/-- C2: for every POST /ask request whose body text is missing, empty, or
whitespace-only, the handler responds 400 with an error field and performs
no inventory fetch and no process spawn. -/
theorem ask_rejects_missing_or_blank_text (env : Env) (body : JsValue)
    (fetch : FetchOutcome) (events : List PyEvent)
    (h : body = .undefined ∨ ∃ s, body = .str s ∧ jsTrim s = "") :
    delivered (askRequest env body fetch events) = some ⟨400, .errMsg "No text provided"⟩
    ∧ (∀ r, Action.fetchInv r ∉ (askRequest env body fetch events).log)
    ∧ (∀ cmd args, Action.spawned cmd args ∉ (askRequest env body fetch events).log) := by
  have hinv : textInvalid body = true := by
    rcases h with h | ⟨s, rfl, hs⟩
    · subst h; rfl
    · simp [textInvalid, jsStr, hs]
  rw [askRequest_invalid env body fetch events hinv]
  refine ⟨rfl, ?_, ?_⟩ <;> simp [delivered, sends, sendsL]

theorem ask_rejects_missing_or_blank_text_witness :
    ((JsValue.str "   ") = .undefined ∨ ∃ s, (JsValue.str "   ") = .str s ∧ jsTrim s = "")
    ∧ (delivered (askRequest ⟨"python3", "assistant.py", id⟩ (.str "   ") (.ok [])
          [.close 0]) = some ⟨400, .errMsg "No text provided"⟩
      ∧ (∀ r, Action.fetchInv r
          ∉ (askRequest ⟨"python3", "assistant.py", id⟩ (.str "   ") (.ok []) [.close 0]).log)
      ∧ (∀ cmd args, Action.spawned cmd args
          ∉ (askRequest ⟨"python3", "assistant.py", id⟩ (.str "   ") (.ok []) [.close 0]).log)) :=
  ⟨Or.inr ⟨"   ", rfl, by decide⟩,
   ask_rejects_missing_or_blank_text ⟨"python3", "assistant.py", id⟩ (.str "   ") (.ok [])
     [.close 0] (Or.inr ⟨"   ", rfl, by decide⟩)⟩

/-- C10: for every POST /ask request whose body text is present but not a
string (number, array, object, boolean or null), the handler responds 400
with error No text provided and performs no inventory fetch and no process
spawn: non-strings land in the same validation branch as missing text. -/
theorem ask_rejects_nonstring_text (env : Env) (body : JsValue)
    (fetch : FetchOutcome) (events : List PyEvent) (h : jsIsString body = false) :
    delivered (askRequest env body fetch events) = some ⟨400, .errMsg "No text provided"⟩
    ∧ (∀ r, Action.fetchInv r ∉ (askRequest env body fetch events).log)
    ∧ (∀ cmd args, Action.spawned cmd args ∉ (askRequest env body fetch events).log) := by
  have hinv : textInvalid body = true := by simp [textInvalid, h]
  rw [askRequest_invalid env body fetch events hinv]
  refine ⟨rfl, ?_, ?_⟩ <;> simp [delivered, sends, sendsL]

theorem ask_rejects_nonstring_text_witness :
    jsIsString (.num 7) = false
    ∧ (delivered (askRequest ⟨"python3", "assistant.py", id⟩ (.num 7) (.ok [])
          [.close 0]) = some ⟨400, .errMsg "No text provided"⟩
      ∧ (∀ r, Action.fetchInv r
          ∉ (askRequest ⟨"python3", "assistant.py", id⟩ (.num 7) (.ok []) [.close 0]).log)
      ∧ (∀ cmd args, Action.spawned cmd args
          ∉ (askRequest ⟨"python3", "assistant.py", id⟩ (.num 7) (.ok []) [.close 0]).log)) :=
  ⟨rfl,
   ask_rejects_nonstring_text ⟨"python3", "assistant.py", id⟩ (.num 7) (.ok [])
     [.close 0] rfl⟩

/-- C4: fetchInventoryFromDB maps every fetched record to an entry keyed
by the record name lower-cased, with value currentStock or 0 when that
field is null or undefined (with later records overwriting earlier ones at
the same key, as JavaScript object assignment does); in particular the
records Flour 5 and Sugar null produce the map flour 5, sugar 0. -/
theorem fetchInventory_lowercases_and_defaults :
    (∀ (records : List IngredientRec) (k : String),
      getVal (fetchInventoryFromDB records) k = lastStock k records)
    ∧ fetchInventoryFromDB [⟨"Flour", some 5⟩, ⟨"Sugar", none⟩]
        = [("flour", 5), ("sugar", 0)] := by
  constructor
  · intro records k
    rw [fetchInventoryFromDB, getVal_foldl_objSet]
    cases lastStock k records <;> simp [getVal]
  · decide

/-- C3: for both /ask and /audio, when the process closes with a nonzero
exit code or any captured stderr content, the handler responds 500 with
that exit code and the trimmed accumulated stderr; only when the exit code
is 0 and stderr is empty is the success response sent. -/
theorem close_strict_failure_policy (env : Env) (records : List IngredientRec)
    (s fp : String) (u : String → Bool) (evs : List PyEvent) (code : Int)
    (hs : jsTrim s ≠ "") (hd : ∀ ev ∈ evs, isDataEvent ev = true) :
    ((code ≠ 0 ∨ errAcc evs "" ≠ "") →
      delivered (askRequest env (.str s) (.ok records) (evs ++ [.close code]))
          = some ⟨500, .errProc "Python process failed" code (jsTrim (errAcc evs ""))⟩
      ∧ delivered (audioRequest env (some fp) u (evs ++ [.close code]))
          = some ⟨500, .errProc "Python audio process failed" code (jsTrim (errAcc evs ""))⟩)
    ∧ ((code = 0 ∧ errAcc evs "" = "") →
      delivered (askRequest env (.str s) (.ok records) (evs ++ [.close code]))
          = some ⟨200, .reply (jsTrim (dataAcc evs ""))⟩
      ∧ delivered (audioRequest env (some fp) u (evs ++ [.close code]))
          = some ⟨200, .response (jsTrim (dataAcc evs ""))⟩) := by
  constructor
  · intro hc
    constructor
    · simp only [askRequest, textInvalid_str s hs, Bool.false_eq_true, if_false,
        foldl_askOnEvent, askL_append, askL_data_only evs hd, askL, hc]
      simp [delivered, sends, sendsL, hc]
    · simp only [audioRequest, foldl_audioOnEvent, audioL_append,
        audioL_data_only _ u evs hd, audioL, hc]
      simp [delivered, sends, sendsL, hc]
  · rintro ⟨hc0, hce⟩
    subst hc0
    constructor
    · simp only [askRequest, textInvalid_str s hs, Bool.false_eq_true, if_false,
        foldl_askOnEvent, askL_append, askL_data_only evs hd, askL, hce]
      simp [delivered, sends, sendsL]
    · simp only [audioRequest, foldl_audioOnEvent, audioL_append,
        audioL_data_only _ u evs hd, audioL, hce]
      simp [delivered, sends, sendsL]

theorem close_strict_failure_policy_witness :
    (jsTrim "refill" ≠ "" ∧ (∀ ev ∈ [PyEvent.stderrData "boom"], isDataEvent ev = true))
    ∧ (((2 : Int) ≠ 0 ∨ errAcc [PyEvent.stderrData "boom"] "" ≠ "") →
      delivered (askRequest ⟨"python3", "assistant.py", id⟩ (.str "refill") (.ok [])
          ([PyEvent.stderrData "boom"] ++ [.close 2]))
          = some ⟨500, .errProc "Python process failed" 2
              (jsTrim (errAcc [PyEvent.stderrData "boom"] ""))⟩
      ∧ delivered (audioRequest ⟨"python3", "assistant.py", id⟩ (some "f.wav") (fun _ => true)
          ([PyEvent.stderrData "boom"] ++ [.close 2]))
          = some ⟨500, .errProc "Python audio process failed" 2
              (jsTrim (errAcc [PyEvent.stderrData "boom"] ""))⟩)
    ∧ (((2 : Int) = 0 ∧ errAcc [PyEvent.stderrData "boom"] "" = "") →
      delivered (askRequest ⟨"python3", "assistant.py", id⟩ (.str "refill") (.ok [])
          ([PyEvent.stderrData "boom"] ++ [.close 2]))
          = some ⟨200, .reply (jsTrim (dataAcc [PyEvent.stderrData "boom"] ""))⟩
      ∧ delivered (audioRequest ⟨"python3", "assistant.py", id⟩ (some "f.wav") (fun _ => true)
          ([PyEvent.stderrData "boom"] ++ [.close 2]))
          = some ⟨200, .response (jsTrim (dataAcc [PyEvent.stderrData "boom"] ""))⟩) :=
  ⟨⟨by decide, by decide⟩,
   close_strict_failure_policy ⟨"python3", "assistant.py", id⟩ [] "refill" "f.wav"
     (fun _ => true) [PyEvent.stderrData "boom"] 2 (by decide) (by decide)⟩

/-- C5: in the /audio handler, on every process close event regardless of
exit code, deletion of the temporary uploaded file is attempted before the
response decision (the unlink action precedes the send action in the log),
and the response is the same whether the deletion succeeds or fails. -/
theorem audio_close_unlinks_before_response (env : Env) (p : String)
    (u1 u2 : String → Bool) (evs : List PyEvent) (code : Int)
    (hd : ∀ ev ∈ evs, isDataEvent ev = true) :
    ∃ r : HttpResponse,
      (∀ u : String → Bool,
        (audioRequest env (some p) u (evs ++ [.close code])).log
          = [.spawned env.pythonPath [env.scriptPath, "--audio", env.resolve p],
             .unlink (env.resolve p) (u (env.resolve p)),
             .send r])
      ∧ delivered (audioRequest env (some p) u1 (evs ++ [.close code]))
          = delivered (audioRequest env (some p) u2 (evs ++ [.close code])) := by
  by_cases hc : code ≠ 0 ∨ errAcc evs "" ≠ ""
  · refine ⟨⟨500, .errProc "Python audio process failed" code (jsTrim (errAcc evs ""))⟩,
      fun u => ?_, ?_⟩
    · simp only [audioRequest, foldl_audioOnEvent, audioL_append,
        audioL_data_only _ u evs hd, audioL, hc]
      simp
    · simp only [audioRequest, foldl_audioOnEvent, audioL_append,
        audioL_data_only _ u1 evs hd, audioL_data_only _ u2 evs hd, audioL, hc]
      simp [delivered, sends, sendsL]
  · refine ⟨⟨200, .response (jsTrim (dataAcc evs ""))⟩, fun u => ?_, ?_⟩
    · simp only [audioRequest, foldl_audioOnEvent, audioL_append,
        audioL_data_only _ u evs hd, audioL, hc]
      simp
    · simp only [audioRequest, foldl_audioOnEvent, audioL_append,
        audioL_data_only _ u1 evs hd, audioL_data_only _ u2 evs hd, audioL, hc]
      simp [delivered, sends, sendsL]

theorem audio_close_unlinks_before_response_witness :
    (∀ ev ∈ [PyEvent.stdoutData "ok"], isDataEvent ev = true)
    ∧ (∃ r : HttpResponse,
      (∀ u : String → Bool,
        (audioRequest ⟨"python3", "assistant.py", id⟩ (some "up/tmp.wav") u
            ([PyEvent.stdoutData "ok"] ++ [.close 0])).log
          = [.spawned "python3" ["assistant.py", "--audio", id "up/tmp.wav"],
             .unlink (id "up/tmp.wav") (u (id "up/tmp.wav")),
             .send r])
      ∧ delivered (audioRequest ⟨"python3", "assistant.py", id⟩ (some "up/tmp.wav")
            (fun _ => true) ([PyEvent.stdoutData "ok"] ++ [.close 0]))
          = delivered (audioRequest ⟨"python3", "assistant.py", id⟩ (some "up/tmp.wav")
            (fun _ => false) ([PyEvent.stdoutData "ok"] ++ [.close 0]))) :=
  ⟨by decide,
   audio_close_unlinks_before_response ⟨"python3", "assistant.py", id⟩ "up/tmp.wav"
     (fun _ => true) (fun _ => false) [PyEvent.stdoutData "ok"] 0 (by decide)⟩

/-- C6: in the /audio handler, when the spawn itself fails (the error event
fires and close never does), the handler responds 500 with the failure
message and the temporary uploaded file is never deleted in that branch:
no unlink action appears in the log. -/
theorem audio_spawn_failure_skips_cleanup (env : Env) (p msg : String)
    (u : String → Bool) :
    delivered (audioRequest env (some p) u [.error msg])
      = some ⟨500, .errDetails "Failed to start Python audio process" msg⟩
    ∧ (∀ q b, Action.unlink q b ∉ (audioRequest env (some p) u [.error msg]).log) := by
  constructor
  · simp [audioRequest, audioOnEvent, delivered, sends, sendsL]
  · intro q b
    simp [audioRequest, audioOnEvent]

/-- C7: getPythonPath returns the first candidate of the fixed ordered
list that exists on disk or contains no path separator, and the hardcoded
fallback return "python" is unreachable for the actual platform separators,
because the bare-name candidates always pass the no-separator test. -/
theorem getPythonPath_first_match_fallback_unreachable (fsExists : String → Bool)
    (dirname : String) (sep : Char) (h : sep = '/' ∨ sep = '\\') :
    ∃ p, (possiblePaths dirname sep.toString).find? (candidateOk fsExists sep) = some p
      ∧ getPythonPath fsExists dirname sep = p := by
  have hbare : candidateOk fsExists sep "python.exe" = true := by
    rcases h with h | h <;> subst h <;> simp [candidateOk, includesChar]
  have hmem : "python.exe" ∈ possiblePaths dirname sep.toString := by
    simp [possiblePaths]
  have hex : ∃ x, x ∈ possiblePaths dirname sep.toString ∧ candidateOk fsExists sep x :=
    ⟨"python.exe", hmem, hbare⟩
  have hsome : ((possiblePaths dirname sep.toString).find? (candidateOk fsExists sep)).isSome :=
    List.find?_isSome.mpr hex
  obtain ⟨p, hp⟩ := Option.isSome_iff_exists.mp hsome
  refine ⟨p, hp, ?_⟩
  simp [getPythonPath, firstCandidate_eq_find, hp]

theorem getPythonPath_first_match_fallback_unreachable_witness :
    (('/' : Char) = '/' ∨ ('/' : Char) = '\\')
    ∧ ∃ p, (possiblePaths "/app/backend/routes" ('/' : Char).toString).find?
          (candidateOk (fun _ => false) '/') = some p
      ∧ getPythonPath (fun _ => false) "/app/backend/routes" '/' = p :=
  ⟨Or.inl rfl,
   getPythonPath_first_match_fallback_unreachable (fun _ => false) "/app/backend/routes" '/'
     (Or.inl rfl)⟩

/-- C8: for every valid /ask request the spawn argument list is exactly
the script path followed by the raw text, independent of the fetched
inventory, and two runs differing only in the inventory records produce
the same spawn calls and the same delivered HTTP response. -/
theorem ask_inventory_not_passed_to_process (env : Env) (s : String)
    (r1 r2 : List IngredientRec) (evs : List PyEvent) (h : jsTrim s ≠ "") :
    spawnedOf (askRequest env (.str s) (.ok r1) evs)
        = [(env.pythonPath, [env.scriptPath, s])]
    ∧ spawnedOf (askRequest env (.str s) (.ok r2) evs)
        = [(env.pythonPath, [env.scriptPath, s])]
    ∧ delivered (askRequest env (.str s) (.ok r1) evs)
        = delivered (askRequest env (.str s) (.ok r2) evs) := by
  have hrun : ∀ r : List IngredientRec,
      askRequest env (.str s) (.ok r) evs
        = ⟨dataAcc evs "", errAcc evs "",
           [.fetchInv (some (fetchInventoryFromDB r)),
            .spawned env.pythonPath [env.scriptPath, s]] ++ askL evs "" ""⟩ := by
    intro r
    simp [askRequest, textInvalid_str s h, foldl_askOnEvent, jsStr]
  refine ⟨?_, ?_, ?_⟩
  · rw [hrun r1]
    show spawnedL _ = _
    rw [spawnedL_append, spawnedL_askL]
    rfl
  · rw [hrun r2]
    show spawnedL _ = _
    rw [spawnedL_append, spawnedL_askL]
    rfl
  · rw [hrun r1, hrun r2]
    show (sendsL _).head? = (sendsL _).head?
    rw [sendsL_append, sendsL_append]
    rfl

theorem ask_inventory_not_passed_to_process_witness :
    jsTrim "do we have sugar" ≠ ""
    ∧ (spawnedOf (askRequest ⟨"python3", "assistant.py", id⟩ (.str "do we have sugar")
          (.ok []) [.close 0])
        = [("python3", ["assistant.py", "do we have sugar"])]
      ∧ spawnedOf (askRequest ⟨"python3", "assistant.py", id⟩ (.str "do we have sugar")
          (.ok [⟨"Flour", some 5⟩]) [.close 0])
        = [("python3", ["assistant.py", "do we have sugar"])]
      ∧ delivered (askRequest ⟨"python3", "assistant.py", id⟩ (.str "do we have sugar")
          (.ok []) [.close 0])
        = delivered (askRequest ⟨"python3", "assistant.py", id⟩ (.str "do we have sugar")
          (.ok [⟨"Flour", some 5⟩]) [.close 0])) :=
  ⟨by decide,
   ask_inventory_not_passed_to_process ⟨"python3", "assistant.py", id⟩ "do we have sugar"
     [] [⟨"Flour", some 5⟩] [.close 0] (by decide)⟩

/-- C9: for every request to /ask or /audio at most one response is ever
delivered, even when both the error and the close listener fire for the
same invocation; the code itself attempts one send per fired listener (two
attempts in the error-then-close run below), and the framework delivers
only the first. -/
theorem at_most_one_response_delivered (env : Env) (body : JsValue)
    (fetch : FetchOutcome) (evs evs2 : List PyEvent) (file : Option String)
    (u : String → Bool) :
    (delivered (askRequest env body fetch evs)).toList.length ≤ 1
    ∧ (delivered (audioRequest env file u evs2)).toList.length ≤ 1
    ∧ sends (askRequest ⟨"python3", "assistant.py", id⟩ (.str "hi") (.ok [])
          [.error "boom", .close 0])
        = [⟨500, .errDetails "Failed to start Python process" "boom"⟩,
           ⟨200, .reply ""⟩]
    ∧ delivered (askRequest ⟨"python3", "assistant.py", id⟩ (.str "hi") (.ok [])
          [.error "boom", .close 0])
        = some ⟨500, .errDetails "Failed to start Python process" "boom"⟩ := by
  refine ⟨?_, ?_, ?_, ?_⟩
  · cases delivered (askRequest env body fetch evs) <;> simp
  · cases delivered (audioRequest env file u evs2) <;> simp
  · decide
  · decide

end Assistant
